import Mathlib

/-!
# Verification of the ESC/POS command/codec engine

Shallow embedding of the command/codec core of an ESC/POS receipt-printer
library.  Rust strings are modelled as `List Char` (Unicode scalar values);
Rust `str::len` is the UTF-8 byte length; machine bytes are `Nat` values
below 256.  Fallible Rust functions returning `Result<T, PrinterError>` are
modelled as `Except PrinterError T`.
-/

namespace Escpos

/-- The error kinds of `errors.rs` (`PrinterError`). -/
inductive PrinterError where
  | ioError : String → PrinterError
  | input : String → PrinterError
  | invalidResponse : String → PrinterError
  deriving DecidableEq, Repr

/-- A `Command` is one atomic byte sequence (`protocol.rs`: `type Command = Vec<u8>`). -/
abbrev Command := List Nat

/-- Equality of `Except` values is decidable componentwise (used to evaluate
the embedded functions on concrete inputs). -/
instance {ε α : Type} [DecidableEq ε] [DecidableEq α] : DecidableEq (Except ε α)
  | .ok a, .ok b =>
    if h : a = b then .isTrue (by rw [h]) else .isFalse (by intro hc; cases hc; exact h rfl)
  | .ok _, .error _ => .isFalse (by intro hc; cases hc)
  | .error _, .ok _ => .isFalse (by intro hc; cases hc)
  | .error e, .error f =>
    if h : e = f then .isTrue (by rw [h]) else .isFalse (by intro hc; cases hc; exact h rfl)

/-- `true` on `Ok`, `false` on `Err` (Rust `Result::is_ok`). -/
def isOkB {ε α : Type} : Except ε α → Bool
  | .ok _ => true
  | .error _ => false

/-- UTF-8 encoding of one Unicode scalar value, as Rust produces for a `char`. -/
def utf8Char (c : Char) : List Nat :=
  let n := c.toNat
  if n < 0x80 then [n]
  else if n < 0x800 then [0xC0 + n / 64, 0x80 + n % 64]
  else if n < 0x10000 then [0xE0 + n / 4096, 0x80 + n / 64 % 64, 0x80 + n % 64]
  else [0xF0 + n / 262144, 0x80 + n / 4096 % 64, 0x80 + n / 64 % 64, 0x80 + n % 64]

/-- The UTF-8 bytes of a whole string (Rust `str::as_bytes`). -/
def strBytes (s : List Char) : List Nat := s.flatMap utf8Char

/-- Rust `String::len` / `str::len`: the UTF-8 byte length. -/
def strLen (s : List Char) : Nat := (strBytes s).length

/-- `io/encoder.rs` `Encoder::encode` with the default `UTF_8` codec:
the UTF-8 encoder of `encoding_rs` never reports an unmappable character,
so the Rust `Result` is always `Ok` and the function is total here. -/
def Encoder.encode (data : List Char) : List Nat := strBytes data

/-- `codes/barcodes.rs` `BarcodeSystem`. -/
inductive BarcodeSystem where
  | UPCA | UPCE | EAN13 | EAN8 | CODE39 | ITF | CODABAR
  deriving DecidableEq, Repr

/-- `From<BarcodeSystem> for u8`. -/
def BarcodeSystem.toU8 : BarcodeSystem → Nat
  | .UPCA => 0
  | .UPCE => 1
  | .EAN13 => 2
  | .EAN8 => 3
  | .CODE39 => 4
  | .ITF => 5
  | .CODABAR => 6

/-- `codes/barcodes.rs` `CODE39_VALID_CHARS`. -/
def CODE39_VALID_CHARS : List Char := [
  '0', '1', '2', '3', '4', '5', '6', '7', '8', '9', '$', '%', '*', '+', '-', '.', '/',
  'A', 'B', 'C', 'D', 'E', 'F', 'G', 'H', 'I', 'J', 'K', 'L', 'M', 'N', 'O', 'P', 'Q',
  'R', 'S', 'T', 'U', 'V', 'W', 'X', 'Y', 'Z', ' ']

/-- `codes/barcodes.rs` `CODABAR_VALID_CHARS`. -/
def CODABAR_VALID_CHARS : List Char := [
  '0', '1', '2', '3', '4', '5', '6', '7', '8', '9', 'A', 'B', 'C', 'D', 'a', 'b', 'c',
  'd', '$', '+', '-', '.', '/', ':']

/-- `Barcode::validate` (`codes/barcodes.rs`).  `data_len` is the Rust byte
length; the UPC-E branch keeps the source's `&&`/`||` precedence:
`(digits && len ∈ [6,7,8,11,12] && len == 6) || first == '0'`. -/
def Barcode.validate (system : BarcodeSystem) (data : List Char) : Except PrinterError Unit :=
  let data_len := strLen data
  let is_data_all_digits := data.all (fun c => c.isDigit)
  match system with
  | .UPCA =>
    if is_data_all_digits && [11, 12].contains data_len then .ok ()
    else .error (.input ("invalid UPC-A data: " ++ String.mk data))
  | .UPCE =>
    if is_data_all_digits && [6, 7, 8, 11, 12].contains data_len && data_len == 6
        || data.head? == some '0' then .ok ()
    else .error (.input ("invalid UPC-E data: " ++ String.mk data))
  | .EAN8 =>
    if is_data_all_digits && [7, 8].contains data_len then .ok ()
    else .error (.input ("invalid EAN8 data: " ++ String.mk data))
  | .EAN13 =>
    if is_data_all_digits && [12, 13].contains data_len then .ok ()
    else .error (.input ("invalid EAN13 data: " ++ String.mk data))
  | .ITF =>
    if decide (data_len ≥ 2) && is_data_all_digits then .ok ()
    else .error (.input ("invalid ITF data: " ++ String.mk data))
  | .CODE39 =>
    if decide (data_len ≥ 1) && data.all (fun c => CODE39_VALID_CHARS.contains c) then .ok ()
    else .error (.input ("invalid CODE39 data: " ++ String.mk data))
  | .CODABAR =>
    if decide (data_len ≥ 2) && data.all (fun c => CODABAR_VALID_CHARS.contains c) then .ok ()
    else .error (.input ("invalid CODABAR data: " ++ String.mk data))

/-- `common.rs` `get_parameters_number_2`.  `checked_add_signed(-256 * ph)`
never underflows because `256 * ph ≤ data_len`; the two final `u8::try_from`
conversions fail exactly when the value exceeds 255 (a `TryFromIntError`
becomes `PrinterError::Io`). -/
def get_parameters_number_2 (data : List Char) (padding : Nat) : Except PrinterError (Nat × Nat) :=
  let bytes := strBytes data
  let data_len := bytes.length + padding
  let ph := data_len / 256
  let pl := data_len - 256 * ph
  if pl ≥ 256 then .error (.ioError "out of range integral type conversion attempted")
  else if ph ≥ 256 then .error (.ioError "out of range integral type conversion attempted")
  else .ok (pl, ph)

/-- `status.rs` `RealTimeStatusRequest`. -/
inductive RealTimeStatusRequest where
  | Printer | OfflineCause | ErrorCause | RollPaperSensor
  | InkA | InkB | Peeler | Interface | DMD
  deriving DecidableEq, Repr

/-- `status.rs` `RealTimeStatusResponse` (the named status flags). -/
inductive RealTimeStatusResponse where
  | DrawerKickOutConnectorPin3Low | Online | WaitingForOnlineRecovery | PaperFeedButtonPressed
  | CoverClosed | PaperFedByPaperFeedButton | PrintingStopsDueToPaperEnd | ErrorOccurred
  | RecoverableErrorOccurred | AutocutterErrorOccurred | UnrecoverableErrorOccurred
  | AutoRecoverableErrorOccurred
  | RollPaperNearEndSensorPaperAdequate | RollPaperEndSensorPaperPresent
  | InkNearEndDetected | InkEndDetected | InkCartridgeDetected | CleaningPerformed
  | WaitingForLabelToBeRemoved | PaperPresentInLabelPeelingDetector
  | PrintingMultipleInterfacesEnabled
  | DMDTransmissionStatusReady
  deriving DecidableEq, Repr

/-- Bit `i` (LSB-indexed) of the byte `b`. -/
def bitAt (b i : Nat) : Nat := b / 2 ^ i % 2

/-- The digit vector built by `format!("{response:08b}") ... .rev()` for a
`u8` value: index `i` holds bit `i` of the byte (LSB at index 0). -/
def binaryOf (b : Nat) : List Nat := (List.range 8).map (fun i => bitAt b i)

/-- `RealTimeStatusResponse::is_pattern_valid`: the list must have 8 entries
with `data[0] = 0`, `data[1] = 1`, `data[4] = 1`, `data[7] = 0`. -/
def is_pattern_valid (data : List Nat) : Bool :=
  if data.length != 8 then false
  else if data.getD 0 0 != 0 || data.getD 1 0 != 1 || data.getD 4 0 != 1 || data.getD 7 0 != 0
    then false
  else true

/-- `RealTimeStatusResponse::parse`.  The `HashMap<Self, bool>` is modelled
as the association list of its insertions (keys are pairwise distinct in
every category, so this is the map's graph). -/
def RealTimeStatusResponse.parse (request : RealTimeStatusRequest) (response : Nat) :
    Except PrinterError (List (RealTimeStatusResponse × Bool)) :=
  let binary := binaryOf response
  if ¬ is_pattern_valid binary then
    .error (.invalidResponse "invalid response pattern (0xx1xx10 expected)")
  else
    .ok (match request with
      | .Printer =>
        [(.DrawerKickOutConnectorPin3Low, binary.getD 2 0 == 0),
         (.Online, binary.getD 3 0 == 0),
         (.WaitingForOnlineRecovery, binary.getD 5 0 == 1),
         (.PaperFeedButtonPressed, binary.getD 6 0 == 1)]
      | .OfflineCause =>
        [(.CoverClosed, binary.getD 2 0 == 0),
         (.PaperFedByPaperFeedButton, binary.getD 3 0 == 1),
         (.PrintingStopsDueToPaperEnd, binary.getD 5 0 == 1),
         (.ErrorOccurred, binary.getD 6 0 == 1)]
      | .ErrorCause =>
        [(.RecoverableErrorOccurred, binary.getD 2 0 == 1),
         (.AutocutterErrorOccurred, binary.getD 3 0 == 1),
         (.UnrecoverableErrorOccurred, binary.getD 5 0 == 1),
         (.AutoRecoverableErrorOccurred, binary.getD 6 0 == 1)]
      | .RollPaperSensor =>
        [(.RollPaperNearEndSensorPaperAdequate, binary.getD 2 0 == 0 && binary.getD 3 0 == 0),
         (.RollPaperEndSensorPaperPresent, binary.getD 5 0 == 0 && binary.getD 6 0 == 0)]
      | .InkA =>
        [(.InkNearEndDetected, binary.getD 2 0 == 1),
         (.InkEndDetected, binary.getD 3 0 == 1),
         (.InkCartridgeDetected, binary.getD 5 0 == 0),
         (.CleaningPerformed, binary.getD 6 0 == 1)]
      | .InkB =>
        [(.InkNearEndDetected, binary.getD 2 0 == 1),
         (.InkEndDetected, binary.getD 3 0 == 1),
         (.InkCartridgeDetected, binary.getD 5 0 == 0)]
      | .Peeler =>
        [(.WaitingForLabelToBeRemoved, binary.getD 2 0 == 1),
         (.PaperPresentInLabelPeelingDetector, binary.getD 5 0 == 0)]
      | .Interface =>
        [(.PrintingMultipleInterfacesEnabled, binary.getD 2 0 == 1)]
      | .DMD =>
        [(.DMDTransmissionStatusReady, binary.getD 2 0 == 0)])

/-- The fixed flag set of each status category, as decoded by
`RealTimeStatusResponse::parse` (insertion order). -/
def categoryFlags : RealTimeStatusRequest → List RealTimeStatusResponse
  | .Printer =>
    [.DrawerKickOutConnectorPin3Low, .Online, .WaitingForOnlineRecovery, .PaperFeedButtonPressed]
  | .OfflineCause =>
    [.CoverClosed, .PaperFedByPaperFeedButton, .PrintingStopsDueToPaperEnd, .ErrorOccurred]
  | .ErrorCause =>
    [.RecoverableErrorOccurred, .AutocutterErrorOccurred, .UnrecoverableErrorOccurred,
     .AutoRecoverableErrorOccurred]
  | .RollPaperSensor =>
    [.RollPaperNearEndSensorPaperAdequate, .RollPaperEndSensorPaperPresent]
  | .InkA => [.InkNearEndDetected, .InkEndDetected, .InkCartridgeDetected, .CleaningPerformed]
  | .InkB => [.InkNearEndDetected, .InkEndDetected, .InkCartridgeDetected]
  | .Peeler => [.WaitingForLabelToBeRemoved, .PaperPresentInLabelPeelingDetector]
  | .Interface => [.PrintingMultipleInterfacesEnabled]
  | .DMD => [.DMDTransmissionStatusReady]

/-! ## Constants (`constants.rs`; `b'x'` literals written as their byte values) -/

/-- `NUL`. -/
def NUL : Nat := 0x00

/-- `GS` (group separator). -/
def GS : Nat := 0x1D

/-- `GS_TEXT_SIZE_SELECT = [GS, b'!']`. -/
def GS_TEXT_SIZE_SELECT : Command := [GS, 0x21]

/-- `GS_BARCODE_POSITION = [GS, b'H']`. -/
def GS_BARCODE_POSITION : Command := [GS, 0x48]

/-- `GS_BARCODE_FONT = [GS, b'f']`. -/
def GS_BARCODE_FONT : Command := [GS, 0x66]

/-- `GS_BARCODE_HEIGHT = [GS, b'h']`. -/
def GS_BARCODE_HEIGHT : Command := [GS, 0x68]

/-- `GS_BARCODE_WIDTH = [GS, b'w']`. -/
def GS_BARCODE_WIDTH : Command := [GS, 0x77]

/-- `GS_BARCODE_PRINT = [GS, b'k']`. -/
def GS_BARCODE_PRINT : Command := [GS, 0x6B]

/-- `GS_2D = [GS, b'(', b'k']`. -/
def GS_2D : Command := [GS, 0x28, 0x6B]

/-! ## 1D barcode options (`codes/barcodes.rs`) -/

/-- `BarcodeFont`. -/
inductive BarcodeFont where
  | A | B | C | D | E
  deriving DecidableEq, Repr

/-- `From<BarcodeFont> for u8`. -/
def BarcodeFont.toU8 : BarcodeFont → Nat
  | .A => 0
  | .B => 1
  | .C => 2
  | .D => 3
  | .E => 4

/-- `BarcodePosition`. -/
inductive BarcodePosition where
  | None | Above | Below | Both
  deriving DecidableEq, Repr

/-- `From<BarcodePosition> for u8`. -/
def BarcodePosition.toU8 : BarcodePosition → Nat
  | .None => 0
  | .Above => 1
  | .Below => 2
  | .Both => 3

/-- `BarcodeWidth`. -/
inductive BarcodeWidth where
  | XS | S | M | L | XL
  deriving DecidableEq, Repr

/-- `From<BarcodeWidth> for u8`. -/
def BarcodeWidth.toU8 : BarcodeWidth → Nat
  | .XS => 1
  | .S => 2
  | .M => 3
  | .L => 4
  | .XL => 5

/-- `BarcodeHeight`. -/
inductive BarcodeHeight where
  | XS | S | M | L | XL
  deriving DecidableEq, Repr

/-- `From<BarcodeHeight> for u8`. -/
def BarcodeHeight.toU8 : BarcodeHeight → Nat
  | .XS => 51
  | .S => 102
  | .M => 153
  | .L => 204
  | .XL => 255

/-- `BarcodeOption`. -/
structure BarcodeOption where
  width : BarcodeWidth
  height : BarcodeHeight
  font : BarcodeFont
  position : BarcodePosition
  deriving DecidableEq, Repr

/-! ## Protocol: 1D barcodes and text size (`protocol.rs`) -/

/-- `Protocol::barcode_font`. -/
def Protocol.barcode_font (font : BarcodeFont) : Command :=
  GS_BARCODE_FONT ++ [font.toU8]

/-- `Protocol::barcode_height`. -/
def Protocol.barcode_height (height : Nat) : Except PrinterError Command :=
  if height == 0 then .error (.input "barcode height cannot be equal to 0")
  else .ok (GS_BARCODE_HEIGHT ++ [height])

/-- `Protocol::barcode_width`: rejects 0, clamps values above 5 to 5. -/
def Protocol.barcode_width (width : Nat) : Except PrinterError Command :=
  if width == 0 then .error (.input "barcode width cannot be equal to 0")
  else
    let width := if width > 5 then 5 else width
    .ok (GS_BARCODE_WIDTH ++ [width])

/-- `Protocol::barcode_position`. -/
def Protocol.barcode_position (position : BarcodePosition) : Command :=
  GS_BARCODE_POSITION ++ [position.toU8]

/-- `Protocol::barcode_print`: `[GS, b'k', system ordinal, data bytes, NUL]`. -/
def Protocol.barcode_print (system : BarcodeSystem) (data : List Char) : Command :=
  GS_BARCODE_PRINT ++ [system.toU8] ++ strBytes data ++ [NUL]

/-- `Protocol::barcode`: width, height, font, position, then print. -/
def Protocol.barcode (data : List Char) (system : BarcodeSystem) (opt : BarcodeOption) :
    Except PrinterError (List Command) := do
  let w ← Protocol.barcode_width opt.width.toU8
  let h ← Protocol.barcode_height opt.height.toU8
  .ok [w, h, Protocol.barcode_font opt.font, Protocol.barcode_position opt.position,
       Protocol.barcode_print system data]

/-- `Protocol::text_size`: width and height must each lie in `1..=8`;
the final byte is `((width - 1) << 4) | (height - 1)`. -/
def Protocol.text_size (width height : Nat) : Except PrinterError Command :=
  if ¬ (1 ≤ width ∧ width ≤ 8) then
    .error (.input ("invalid text_size width: " ++ toString width))
  else if ¬ (1 ≤ height ∧ height ≤ 8) then
    .error (.input ("invalid text_size height: " ++ toString height))
  else .ok (GS_TEXT_SIZE_SELECT ++ [((width - 1) <<< 4) ||| (height - 1)])

/-! ## 2D GS1 DataBar (`codes/gs1_databar_2d.rs`) -/

/-- `EXPANDED_STACKED_VALID_CHARS` (36 symbols; the apostrophe is
`Char.ofNat 39` and the opening brace `Char.ofNat 123`). -/
def EXPANDED_STACKED_VALID_CHARS : List Char := [
  '0', '1', '2', '3', '4', '5', '6', '7', '8', '9', 'A', 'B', 'C', 'D', ' ', '!', '"',
  '%', '$', Char.ofNat 39, '(', ')', '*', '+', ',', '-', '.', '/', ':', ';', '<', '=',
  '>', '?', '_', Char.ofNat 123]

/-- `GS1DataBar2DType`. -/
inductive GS1DataBar2DType where
  | Stacked | StackedOmnidirectional | ExpandedStacked
  deriving DecidableEq, Repr

/-- `GS1DataBar2D::check_data`.  `data_len` is the Rust byte length;
`(0..256).contains(&data_len)` is `data_len < 256`. -/
def GS1DataBar2D.check_data (data : List Char) (code_type : GS1DataBar2DType) :
    Except PrinterError Unit :=
  let data_len := strLen data
  let is_data_all_digits := data.all (fun c => c.isDigit)
  match code_type with
  | .Stacked | .StackedOmnidirectional =>
    if is_data_all_digits && data_len == 13 then .ok ()
    else .error (.input ("invalid GS1 DataBar Stacked Omnidirectional data: " ++ String.mk data))
  | .ExpandedStacked =>
    if decide (data_len < 256) && data.all (fun c => EXPANDED_STACKED_VALID_CHARS.contains c)
      then .ok ()
    else .error (.input ("invalid GS1 DataBar Stacked Omnidirectional data: " ++ String.mk data))

/-! ## PDF417 (`codes/pdf417.rs`, `protocol.rs`) -/

/-- `Pdf417CorrectionLevel`; `RatioVal` is the source's ratio variant
carrying a `u8`. -/
inductive Pdf417CorrectionLevel where
  | Level0 | Level1 | Level2 | Level3 | Level4 | Level5 | Level6 | Level7 | Level8
  | RatioVal : Nat → Pdf417CorrectionLevel
  deriving DecidableEq, Repr

/-- `TryFrom<Pdf417CorrectionLevel> for (u8, u8)`: fixed levels map to
`(48, 48 + level)`; a ratio maps to `(49, value)` when `1 ≤ value ≤ 40` and
is an `Input` error otherwise. -/
def Pdf417CorrectionLevel.tryIntoBytes : Pdf417CorrectionLevel → Except PrinterError (Nat × Nat)
  | .Level0 => .ok (48, 48)
  | .Level1 => .ok (48, 49)
  | .Level2 => .ok (48, 50)
  | .Level3 => .ok (48, 51)
  | .Level4 => .ok (48, 52)
  | .Level5 => .ok (48, 53)
  | .Level6 => .ok (48, 54)
  | .Level7 => .ok (48, 55)
  | .Level8 => .ok (48, 56)
  | .RatioVal v =>
    if 1 ≤ v ∧ v ≤ 40 then .ok (49, v)
    else .error (.input ("invalid PDF417 correction level ratio: " ++ toString v))

/-- `Pdf417Type`. -/
inductive Pdf417Type where
  | Standard | Truncated
  deriving DecidableEq, Repr

/-- `From<Pdf417Type> for u8`. -/
def Pdf417Type.toU8 : Pdf417Type → Nat
  | .Standard => 0
  | .Truncated => 1

/-- `Pdf417Option` (fields as in the source; numeric fields are `u8`). -/
structure Pdf417Option where
  columns : Nat
  rows : Nat
  width : Nat
  row_height : Nat
  code_type : Pdf417Type
  correction_level : Pdf417CorrectionLevel
  deriving DecidableEq, Repr

/-- `Pdf417Option::new`: checks only `columns ∈ 0..=30` and
`rows ∈ {0} ∪ 3..=90`; every other field is stored unchecked. -/
def Pdf417Option.new (columns rows width row_height : Nat) (code_type : Pdf417Type)
    (correction_level : Pdf417CorrectionLevel) : Except PrinterError Pdf417Option :=
  if ¬ (columns ≤ 30) then
    .error (.input ("number of PDF417 columns is not valid(0-30): " ++ toString columns))
  else if rows != 0 && ¬ (3 ≤ rows ∧ rows ≤ 90) then
    .error (.input ("number of PDF417 rows is not valid(0, 3-90): " ++ toString rows))
  else .ok ⟨columns, rows, width, row_height, code_type, correction_level⟩

/-- Modelled from the spec: the byte constants `GS_2D_PDF417_*` are not in
the sources under `src/` (only their uses in `protocol.rs` are).  Per §4.5
the setup frames are `[frame-prefix, lengthLo, lengthHi, subsystem-ordinal,
function-code]` with PDF417 subsystem ordinal 48; the exact bytes do not
affect any claim settled here. -/
def GS_2D_PDF417_COLUMNS : Command := GS_2D ++ [3, 0, 48, 65]

/-- Modelled from the spec: see `GS_2D_PDF417_COLUMNS`. -/
def GS_2D_PDF417_ROWS : Command := GS_2D ++ [3, 0, 48, 66]

/-- Modelled from the spec: see `GS_2D_PDF417_COLUMNS`. -/
def GS_2D_PDF417_WIDTH : Command := GS_2D ++ [3, 0, 48, 67]

/-- Modelled from the spec: see `GS_2D_PDF417_COLUMNS`. -/
def GS_2D_PDF417_ROW_HEIGHT : Command := GS_2D ++ [3, 0, 48, 68]

/-- Modelled from the spec: see `GS_2D_PDF417_COLUMNS` (two parameter
bytes follow the function code). -/
def GS_2D_PDF417_CORRECTION_LEVEL : Command := GS_2D ++ [4, 0, 48, 69]

/-- Modelled from the spec: see `GS_2D_PDF417_COLUMNS`. -/
def GS_2D_PDF417_TYPE : Command := GS_2D ++ [3, 0, 48, 70]

/-- Modelled from the spec: see `GS_2D_PDF417_COLUMNS`. -/
def GS_2D_PDF417_PRINT : Command := GS_2D ++ [3, 0, 48, 81, 48]

/-- `Protocol::pdf417_columns`. -/
def Protocol.pdf417_columns (o : Pdf417Option) : Command :=
  GS_2D_PDF417_COLUMNS ++ [o.columns]

/-- `Protocol::pdf417_rows`. -/
def Protocol.pdf417_rows (o : Pdf417Option) : Command :=
  GS_2D_PDF417_ROWS ++ [o.rows]

/-- `Protocol::pdf417_width`. -/
def Protocol.pdf417_width (o : Pdf417Option) : Command :=
  GS_2D_PDF417_WIDTH ++ [o.width]

/-- `Protocol::pdf417_row_height`. -/
def Protocol.pdf417_row_height (o : Pdf417Option) : Command :=
  GS_2D_PDF417_ROW_HEIGHT ++ [o.row_height]

/-- `Protocol::pdf417_correction_level`: converts the stored correction
level into its `(m, n)` byte pair, propagating the conversion error. -/
def Protocol.pdf417_correction_level (o : Pdf417Option) : Except PrinterError Command := do
  let mn ← o.correction_level.tryIntoBytes
  .ok (GS_2D_PDF417_CORRECTION_LEVEL ++ [mn.1, mn.2])

/-- `Protocol::pdf417_type`. -/
def Protocol.pdf417_type (o : Pdf417Option) : Command :=
  GS_2D_PDF417_TYPE ++ [o.code_type.toU8]

/-- `Protocol::pdf417_data`: `GS_2D ++ [pl, ph, 48, 80, 48] ++ data bytes`
with `(pl, ph)` from `get_parameters_number_2(data, 3)`. -/
def Protocol.pdf417_data (data : List Char) : Except PrinterError Command := do
  let plph ← get_parameters_number_2 data 3
  .ok (GS_2D ++ [plph.1, plph.2, 48, 80, 48] ++ strBytes data)

/-- `Protocol::pdf417`: the eight commands in source order; the
correction-level conversion error fires before the data-frame error, as in
the source's left-to-right `vec![...]` evaluation. -/
def Protocol.pdf417 (data : List Char) (o : Pdf417Option) : Except PrinterError (List Command) := do
  let cl ← Protocol.pdf417_correction_level o
  let d ← Protocol.pdf417_data data
  .ok [Protocol.pdf417_columns o, Protocol.pdf417_rows o, Protocol.pdf417_width o,
       Protocol.pdf417_row_height o, cl, Protocol.pdf417_type o, d, GS_2D_PDF417_PRINT]

/-! ## Page-code tables (`page_codes.rs`) and the text encoder (`protocol.rs`) -/

/-- `page_codes.rs` `PC437_TABLE` source characters, in order. -/
def PC437_CHARS : List Char := [
  'Ç', 'ü', 'é', 'â', 'ä', 'à', 'å', 'ç', 'ê', 'ë', 'è', 'ï', 'î', 'ì', 'Ä', 'Å',
  'É', 'æ', 'Æ', 'ô', 'ö', 'ò', 'û', 'ù', 'ÿ', 'Ö', 'Ü', '¢', '£', '¥', '₧', 'ƒ',
  'á', 'í', 'ó', 'ú', 'ñ', 'Ñ', 'ª', 'º', '¿', '⌐', '¬', '½', '¼', '¡', '«', '»',
  '░', '▒', '▓', '│', '┤', '╡', '╢', '╖', '╕', '╣', '║', '╗', '╝', '╜', '╛', '┐',
  '└', '┴', '┬', '├', '─', '┼', '╞', '╟', '╚', '╔', '╩', '╦', '╠', '═', '╬', '╧',
  '╨', '╤', '╥', '╙', '╘', '╒', '╓', '╫', '╪', '┘', '┌', '█', '▄', '▌', '▐', '▀',
  'α', 'ß', 'Γ', 'π', 'Σ', 'σ', 'µ', 'τ', 'Φ', 'Θ', 'Ω', 'δ', '∞', 'φ', 'ε', '∩',
  '≡', '±', '≥', '≤', '⌠', '⌡', '÷', '≈', '°', '∙', '·', '√', 'ⁿ', '²', '■', Char.ofNat 0x00A0]

/-- `page_codes.rs` `PC852_TABLE` source characters, in order. -/
def PC852_CHARS : List Char := [
  'Ç', 'ü', 'é', 'â', 'ä', 'ů', 'ć', 'ç', 'ł', 'ë', 'Ő', 'ő', 'î', 'Ź', 'Ä', 'Ć',
  'É', 'Ĺ', 'ĺ', 'ô', 'ö', 'Ľ', 'ľ', 'Ś', 'ś', 'Ö', 'Ü', 'Ť', 'ť', 'Ł', '×', 'č',
  'á', 'í', 'ó', 'ú', 'Ą', 'ą', 'Ž', 'ž', 'Ę', 'ę', '¬', 'ź', 'Č', 'ş', '«', '»',
  '░', '▒', '▓', '│', '┤', 'Á', 'Â', 'Ě', 'Ş', '╣', '║', '╗', '╝', 'Ż', 'ż', '┐',
  '└', '┴', '┬', '├', '─', '┼', 'Ă', 'ă', '╚', '╔', '╩', '╦', '╠', '═', '╬', '¤',
  'đ', 'Đ', 'Ď', 'Ë', 'ď', 'Ň', 'Í', 'Î', 'ě', '┘', '┌', '█', '▄', 'Ţ', 'Ů', '▀',
  'Ó', 'ß', 'Ô', 'Ń', 'ń', 'ň', 'Š', 'š', 'Ŕ', 'Ú', 'ŕ', 'Ű', 'ý', 'Ý', 'ţ', '´',
  Char.ofNat 0xAD, '˝', '˛', 'ˇ', '˘', '§', '÷', '¸', '°', '¨', '˙', 'ű', 'Ř', 'ř', '■', Char.ofNat 0x00A0]

/-- `page_codes.rs` `PC858_TABLE` source characters, in order. -/
def PC858_CHARS : List Char := [
  'Ç', 'ü', 'é', 'â', 'ä', 'à', 'å', 'ç', 'ê', 'ë', 'è', 'ï', 'î', 'ì', 'Ä', 'Å',
  'É', 'æ', 'Æ', 'ô', 'ö', 'ò', 'û', 'ù', 'ÿ', 'Ö', 'Ü', 'ø', '£', 'Ø', '×', 'ƒ',
  'á', 'í', 'ó', 'ú', 'ñ', 'Ñ', 'ª', 'º', '®', '⌐', '¬', '½', '¼', '¡', '«', '»',
  '░', '▒', '▓', '│', '┤', 'Á', 'Â', 'À', '©', '╣', '║', '╗', '╝', '¢', '¥', '┐',
  '└', '┴', '┬', '├', '─', '┼', 'ã', 'Ã', '╚', '╔', '╩', '╦', '╠', '═', '╬', '¤',
  'ð', 'Ð', 'Ê', 'Ë', 'È', '€', 'Í', 'Î', 'Ï', '┘', '┌', '█', '▄', '¦', 'Ì', '▀',
  'Ó', 'ß', 'Ô', 'Ô', 'õ', 'Õ', 'µ', 'þ', 'Þ', 'Ú', 'Û', 'Ù', 'ý', 'Ý', '¯', '´',
  '-', '±', '‗', '¾', '¶', '§', '÷', '¸', '°', '¨', '·', '¹', '³', '²', '■', Char.ofNat 0x00A0]

/-- `page_codes.rs` `PC860_TABLE` source characters, in order. -/
def PC860_CHARS : List Char := [
  'Ç', 'ü', 'é', 'â', 'ã', 'à', 'Á', 'ç', 'ê', 'Ê', 'è', 'Í', 'Ô', 'ì', 'Ã', 'Â',
  'É', 'À', 'È', 'ô', 'õ', 'ò', 'Ú', 'ù', 'Ì', 'Õ', 'Ü', '¢', '£', 'Ù', '₧', 'Ó',
  'á', 'í', 'ó', 'ú', 'ñ', 'Ñ', 'ª', 'º', '¿', 'Ò', '¬', '½', '¼', '¡', '«', '»',
  '░', '▒', '▓', '│', '┤', '╡', '╢', '╖', '╕', '╣', '║', '╗', '╝', '╜', '╛', '┐',
  '└', '┴', '┬', '├', '─', '┼', '╞', '╟', '╚', '╔', '╩', '╦', '╠', '═', '╬', '╧',
  '╨', '╤', '╥', '╙', '╘', '╒', '╓', '╫', '╪', '┘', '┌', '█', '▄', '▌', '▐', '▀',
  'α', 'ß', 'Γ', 'π', 'Σ', 'σ', 'µ', 'τ', 'Φ', 'Θ', 'Ω', 'δ', '∞', 'φ', 'ε', '∩',
  '≡', '±', '≥', '≤', '⌠', '⌡', '÷', '≈', '°', '∙', '·', '√', 'ⁿ', '²', '■', Char.ofNat 0x00A0]

/-- `page_codes.rs` `PC865_TABLE` source characters, in order. -/
def PC865_CHARS : List Char := [
  'Ç', 'ü', 'é', 'â', 'ä', 'à', 'å', 'ç', 'ê', 'ë', 'è', 'ï', 'î', 'ì', 'Ä', 'Å',
  'É', 'æ', 'Æ', 'ô', 'ö', 'ò', 'û', 'ù', 'ÿ', 'Ö', 'Ü', 'ø', '£', 'Ø', '₧', 'ƒ',
  'á', 'í', 'ó', 'ú', 'ñ', 'Ñ', 'ª', 'º', '¿', '⌐', '¬', '½', '¼', '¡', '«', '¤',
  '░', '▒', '▓', '│', '┤', '╡', '╢', '╖', '╕', '╣', '║', '╗', '╝', '╜', '╛', '┐',
  '└', '┴', '┬', '├', '─', '┼', '╞', '╟', '╚', '╔', '╩', '╦', '╠', '═', '╬', '╧',
  '╨', '╤', '╥', '╙', '╘', '╒', '╓', '╫', '╪', '┘', '┌', '█', '▄', '▌', '▐', '▀',
  'α', 'ß', 'Γ', 'π', 'Σ', 'σ', 'µ', 'τ', 'Φ', 'Θ', 'Ω', 'δ', '∞', 'φ', 'ε', '∩',
  '≡', '±', '≥', '≤', '⌠', '⌡', '÷', '≈', '°', '∙', '·', '√', 'ⁿ', '²', '■', Char.ofNat 0x00A0]

/-- `page_codes.rs` `ISO8859_2_TABLE` source characters, in order. -/
def ISO8859_2_CHARS : List Char := [
  Char.ofNat 0x00A0, 'Ą', '˘', 'Ł', '¤', 'Ľ', 'Ś', '§', '¨', 'Š', 'Ş', 'Ť', 'Ź', Char.ofNat 0x00AD, 'Ž', 'Ż',
  '°', 'ą', '˛', 'ł', '´', 'ľ', 'ś', 'ˇ', '¸', 'š', 'ş', 'ť', 'ź', '˝', 'ž', 'ż',
  'Ŕ', 'Á', 'Â', 'Ă', 'Ä', 'Ĺ', 'Ć', 'Ç', 'Č', 'É', 'Ę', 'Ë', 'Ě', 'Í', 'Î', 'Ď',
  'Đ', 'Ń', 'Ň', 'Ó', 'Ô', 'Ő', 'Ö', '×', 'Ř', 'Ů', 'Ú', 'Ű', 'Ü', 'Ý', 'Ţ', 'ß',
  'ŕ', 'á', 'â', 'ă', 'ä', 'ĺ', 'ć', 'ç', 'č', 'é', 'ę', 'ë', 'ě', 'í', 'î', 'ď',
  'đ', 'ń', 'ň', 'ó', 'ô', 'ő', 'ö', '÷', 'ř', 'ů', 'ú', 'ű', 'ü', 'ý', 'ţ', '˙']

/-- `page_codes.rs` `ISO8859_7_TABLE` source characters, in order. -/
def ISO8859_7_CHARS : List Char := [
  Char.ofNat 0x00A0, '‘', '’', '£', '€', '₯', '¦', '§', '¨', '©', 'ͺ', '«', '¬', Char.ofNat 0x00AD, Char.ofNat 0, '―',
  '°', '±', '²', '³', '΄', '΅', 'Ά', '·', 'Έ', 'Ή', 'Ί', '»', 'Ό', '½', 'Ύ', 'Ώ',
  'ΐ', 'Α', 'Β', 'Γ', 'Δ', 'Ε', 'Ζ', 'Η', 'Θ', 'Ι', 'Κ', 'Λ', 'Μ', 'Ν', 'Ξ', 'Ο',
  'Π', 'Ρ', Char.ofNat 0, 'Σ', 'Τ', 'Υ', 'Φ', 'Χ', 'Ψ', 'Ω', 'Ϊ', 'Ϋ', 'ά', 'έ', 'ή', 'ί',
  'ΰ', 'α', 'β', 'γ', 'δ', 'ε', 'ζ', 'η', 'θ', 'ι', 'κ', 'λ', 'μ', 'ν', 'ξ', 'ο',
  'π', 'ρ', 'ς', 'σ', 'τ', 'υ', 'φ', 'χ', 'ψ', 'ω', 'ϊ', 'ϋ', 'ό', 'ύ', 'ώ']

/-- `page_codes.rs` `ISO8859_15_TABLE` source characters, in order. -/
def ISO8859_15_CHARS : List Char := [
  Char.ofNat 0x00A0, '¡', '¢', '£', '€', '¥', 'Š', '§', 'š', '©', 'ª', '«', '¬', Char.ofNat 0x00AD, '®', '¯',
  '°', '±', '²', '³', 'Ž', 'µ', '¶', '·', 'ž', '¹', 'º', '»', 'Œ', 'œ', 'Ÿ', '¿',
  'À', 'Á', 'Â', 'Ã', 'Ä', 'Å', 'Æ', 'Ç', 'È', 'É', 'Ê', 'Ë', 'Ì', 'Í', 'Î', 'Ï',
  'Ð', 'Ñ', 'Ò', 'Ó', 'Ô', 'Õ', 'Ö', '×', 'Ø', 'Ù', 'Ú', 'Û', 'Ü', 'Ý', 'Þ', 'ß',
  'à', 'á', 'â', 'ã', 'ä', 'å', 'æ', 'ç', 'è', 'é', 'ê', 'ë', 'ì', 'í', 'î', 'ï',
  'ð', 'ñ', 'ò', 'ó', 'ô', 'õ', 'ö', '÷', 'ø', 'ù', 'ú', 'û', 'ü', 'ý', 'þ', 'ÿ']

/-- `page_codes.rs` `WPC1252_TABLE` source characters, in order. -/
def WPC1252_CHARS : List Char := [
  '€', Char.ofNat 0, '‚', 'ƒ', '„', '…', '†', '‡', 'ˆ', '‰', 'Š', '‹', 'Œ', Char.ofNat 0, 'Ž', Char.ofNat 0,
  Char.ofNat 0, '‘', '’', '“', '”', '•', '–', '—', '˜', '™', 'š', '›', 'œ', Char.ofNat 0, 'ž', 'Ÿ',
  Char.ofNat 0x00A0, '¡', '¢', '£', '¤', '¥', '¦', '§', '¨', '©', 'ª', '«', '¬', Char.ofNat 0x00AD, '®', '¯',
  '°', '±', '²', '³', '´', 'µ', '¶', '·', '¸', '¹', 'º', '»', '¼', '½', '¾', '¿',
  'À', 'Á', 'Â', 'Ã', 'Ä', 'Å', 'Æ', 'Ç', 'È', 'É', 'Ê', 'Ë', 'Ì', 'Í', 'Î', 'Ï',
  'Ð', 'Ñ', 'Ò', 'Ó', 'Ô', 'Õ', 'Ö', '×', 'Ø', 'Ù', 'Ú', 'Û', 'Ü', 'Ý', 'Þ', 'ß',
  'à', 'á', 'â', 'ã', 'ä', 'å', 'æ', 'ç', 'è', 'é', 'ê', 'ë', 'ì', 'í', 'î', 'ï',
  'ð', 'ñ', 'ò', 'ó', 'ô', 'õ', 'ö', '÷', 'ø', 'ù', 'ú', 'û', 'ü', 'ý', 'þ', 'ÿ']

/-- `(i, c)` enumeration mapped to `(c, base + i)` pairs, as the
`lazy_static!` blocks build their `HashMap<char, u8>`. -/
def mkTable (base : Nat) (cs : List Char) : List (Char × Nat) :=
  cs.enum.map (fun p => (p.2, base + p.1))

/-- Same as `mkTable` but dropping the `'\0'` placeholder entries first
(`.filter(|(_, c)| *c != '\0')` in the source), keeping original indices. -/
def mkTableFiltered (base : Nat) (cs : List Char) : List (Char × Nat) :=
  (cs.enum.filter (fun p => p.2 != Char.ofNat 0)).map (fun p => (p.2, base + p.1))

/-- Lookup in the association list of a `HashMap` built by `collect`:
for duplicate keys the last insertion wins. -/
def tableGet (t : List (Char × Nat)) (c : Char) : Option Nat :=
  (t.reverse.find? (fun p => p.1 == c)).map (fun p => p.2)

/-- `character.rs` `PageCode` (all variants). -/
inductive PageCode where
  | PC437 | Katakana | PC850 | PC860 | PC863 | PC865 | Hiragana | PC851 | PC853 | PC857
  | PC737 | ISO8859_7 | WPC1252 | PC866 | PC852 | PC858 | PC720 | WPC775 | PC855 | PC861
  | PC862 | PC864 | PC869 | ISO8859_2 | ISO8859_15 | PC1098 | PC1118 | PC1119 | PC1125
  | WPC1250 | WPC1251 | WPC1253 | WPC1254 | WPC1255 | WPC1256 | WPC1257 | WPC1258 | KZ1048
  deriving DecidableEq, Repr

/-- `page_codes.rs` `PageCodeTable`: the nine page codes with a registered
table. -/
inductive PageCodeTable where
  | PC437 | PC852 | PC858 | PC860 | PC865 | ISO8859_2 | ISO8859_7 | ISO8859_15 | WPC1252
  deriving DecidableEq, Repr

/-- `PageCodeTable::get_table`: the PC tables start at byte 128, the
ISO 8859 tables at 0xA0; `ISO8859_7` and `WPC1252` drop `'\0'` placeholders. -/
def PageCodeTable.get_table : PageCodeTable → List (Char × Nat)
  | .PC437 => mkTable 128 PC437_CHARS
  | .PC852 => mkTable 128 PC852_CHARS
  | .PC858 => mkTable 128 PC858_CHARS
  | .PC860 => mkTable 128 PC860_CHARS
  | .PC865 => mkTable 128 PC865_CHARS
  | .ISO8859_2 => mkTable 0xA0 ISO8859_2_CHARS
  | .ISO8859_7 => mkTableFiltered 0xA0 ISO8859_7_CHARS
  | .ISO8859_15 => mkTable 0xA0 ISO8859_15_CHARS
  | .WPC1252 => mkTableFiltered 128 WPC1252_CHARS

/-- `TryFrom<PageCode> for PageCodeTable`: only nine page codes resolve to a
table; every other page code is an `Input` error. -/
def PageCodeTable.tryFrom : PageCode → Except PrinterError PageCodeTable
  | .PC437 => .ok .PC437
  | .PC852 => .ok .PC852
  | .PC858 => .ok .PC858
  | .PC860 => .ok .PC860
  | .PC865 => .ok .PC865
  | .ISO8859_2 => .ok .ISO8859_2
  | .ISO8859_7 => .ok .ISO8859_7
  | .ISO8859_15 => .ok .ISO8859_15
  | .WPC1252 => .ok .WPC1252
  | _ => .error (.input "no table for this page code")

/-- The character loop of `Protocol::text` with a page code: before each
character the running count `i` is compared with the max length and the loop
breaks once `i ≥ max`; a table hit pushes one byte (`i += 1`), a miss
appends the whole generic encoding of that character (`i += s.len()`). -/
def Protocol.textGo (table : List (Char × Nat)) (max_length : Option Nat) :
    List Char → Nat → List Nat → List Nat
  | [], _, cmd => cmd
  | c :: rest, i, cmd =>
    if max_length.any (fun m => decide (i ≥ m)) then cmd
    else
      match tableGet table c with
      | some n => Protocol.textGo table max_length rest (i + 1) (cmd ++ [n])
      | none =>
        let s := Encoder.encode [c]
        Protocol.textGo table max_length rest (i + s.length) (cmd ++ s)

/-- `Protocol::text`.  With a page code the table is resolved (or an error
returned) and the string is encoded character by character by
`Protocol.textGo`; without one the whole string is encoded generically and,
when a max length is given, the output bytes are truncated to it
(`Vec::truncate`). -/
def Protocol.text (text : List Char) (page_code : Option PageCode) (max_length : Option Nat) :
    Except PrinterError (List Nat) :=
  match page_code with
  | some pc => do
    let t ← PageCodeTable.tryFrom pc
    .ok (Protocol.textGo t.get_table max_length text 0 [])
  | none =>
    match max_length with
    | some m => .ok ((Encoder.encode text).take m)
    | none => .ok (Encoder.encode text)

/-! ## Bit-image rasterizer (`bit_image.rs`) -/

/-- The pixel buffer of a `BitImage` after resizing, alpha flattening and
grayscale conversion: `pix x y` is channel 0 of the grayscale pixel (the
channel `is_pixel_black` reads).  Resizing, alpha flattening and decoding
are performed by the external `image` crate and are out of scope; the
rasterizer only reads this buffer. -/
structure GrayImage where
  width : Nat
  height : Nat
  pix : Nat → Nat → Nat

/-- `BitImage::is_pixel_black`: a pixel is ink iff its channel value is at
most 128. -/
def BitImage.is_pixel_black (img : GrayImage) (x y : Nat) : Bool :=
  decide (img.pix x y ≤ 128)

/-- The inner `for bit in 0..8` loop of `BitImage::raster_data`: `fuel`
counts the remaining iterations (8 at entry); the loop breaks as soon as
`x + bit ≥ width`, else shifts the pixel in at the low end
(`byte = (byte << 1) | pixel`, i.e. `byte * 2 + pixel`). -/
def BitImage.rasterByteGo (img : GrayImage) (y x bit fuel byte : Nat) : Nat :=
  match fuel with
  | 0 => byte
  | fuel + 1 =>
    if x + bit ≥ img.width then byte
    else
      BitImage.rasterByteGo img y x (bit + 1) fuel
        (byte * 2 + (if BitImage.is_pixel_black img (x + bit) y then 1 else 0))

/-- One output byte of `BitImage::raster_data`, for the block starting at
column `x` of row `y`. -/
def BitImage.rasterByte (img : GrayImage) (y x : Nat) : Nat :=
  BitImage.rasterByteGo img y x 0 8 0

/-- `BitImage::raster_data`: rows top to bottom, each row's blocks at
columns `0, 8, 16, ...` (`(0..width).step_by(8)` has `⌈width/8⌉` items). -/
def BitImage.raster_data (img : GrayImage) : List Nat :=
  (List.range img.height).flatMap (fun y =>
    (List.range ((img.width + 7) / 8)).map (fun k => BitImage.rasterByte img y (8 * k)))

/-- The raster packing as the spec's §4.6 words describe it, for comparison
with `BitImage.raster_data`: 8 pixels per byte, MSB first, and a row whose
width is not a multiple of 8 zero-padded on the right (in the low-order
bits), i.e. pixel `x + bit` always lands at bit `7 - bit`. -/
def BitImage.raster_data_spec_msb (img : GrayImage) : List Nat :=
  (List.range img.height).flatMap (fun y =>
    (List.range ((img.width + 7) / 8)).map (fun k =>
      ((List.range 8).map (fun bit =>
        if 8 * k + bit < img.width ∧ BitImage.is_pixel_black img (8 * k + bit) y
          then 2 ^ (7 - bit) else 0)).sum))

/-- The number of pixels in the block starting at column `x`. -/
def BitImage.blockLen (img : GrayImage) (x : Nat) : Nat := min 8 (img.width - x)

/-- The `k` pixels starting at column `s` packed into the `k` low-order bits
of a byte, first pixel most significant among them (pixel `s + j` lands at
bit `k - 1 - j`). -/
def BitImage.packedBits (img : GrayImage) (y s k : Nat) : Nat :=
  match k with
  | 0 => 0
  | k + 1 =>
    (if BitImage.is_pixel_black img s y then 1 else 0) * 2 ^ k +
      BitImage.packedBits img y (s + 1) k

/-- The per-block byte with the padding `BitImage::raster_data` actually
produces: a full block is MSB-first, a partial final block keeps its pixels
in the low-order bits (zero-padded on the left). -/
def BitImage.rasterByteAmended (img : GrayImage) (y x : Nat) : Nat :=
  BitImage.packedBits img y x (BitImage.blockLen img x)

/-- `BitImage.raster_data` re-expressed through `rasterByteAmended`. -/
def BitImage.raster_data_amended (img : GrayImage) : List Nat :=
  (List.range img.height).flatMap (fun y =>
    (List.range ((img.width + 7) / 8)).map (fun k => BitImage.rasterByteAmended img y (8 * k)))

/-! ## Helper lemmas -/

theorem utf8Char_length_le (c : Char) : (utf8Char c).length ≤ 4 := by
  unfold utf8Char
  dsimp only
  split
  · simp
  · split
    · simp
    · split <;> simp

theorem utf8Char_length_pos (c : Char) : 1 ≤ (utf8Char c).length := by
  unfold utf8Char
  dsimp only
  split
  · simp
  · split
    · simp
    · split <;> simp

theorem utf8Char_ascii (c : Char) (h : c.toNat < 128) : utf8Char c = [c.toNat] := by
  simp [utf8Char]
  omega

theorem digit_toNat_lt (c : Char) (h : c.isDigit = true) : c.toNat < 128 := by
  simp [Char.isDigit] at h
  obtain ⟨-, h2⟩ := h
  have h3 : c.val.toNat ≤ 57 := h2
  simp [Char.toNat]
  omega

theorem strLen_cons (c : Char) (s : List Char) :
    strLen (c :: s) = (utf8Char c).length + strLen s := by
  simp [strLen, strBytes]

theorem strLen_ascii (s : List Char) (h : ∀ c ∈ s, c.toNat < 128) : strLen s = s.length := by
  induction s with
  | nil => rfl
  | cons c s ih =>
    rw [strLen_cons, utf8Char_ascii c (h c (by simp)), ih (fun d hd => h d (by simp [hd]))]
    simp
    omega

theorem strLen_digits (s : List Char) (h : s.all Char.isDigit = true) : strLen s = s.length := by
  refine strLen_ascii s (fun c hc => digit_toNat_lt c ?_)
  simp [List.all_eq_true] at h
  exact h c hc

/-! ## Claims -/

/-- **C1** (counterexample).  `"1234567"` is digit-only with length 7 (one of
the lengths `{6,7,8,11,12}` the claim allows) and does not start with `'0'`,
yet `Barcode::validate` rejects it for UPC-E. -/
theorem C1_upce_counterexample :
    isOkB (Barcode.validate .UPCE "1234567".data) = false ∧
    "1234567".data.all Char.isDigit = true ∧
    strLen "1234567".data = 7 ∧
    "1234567".data.length = 7 ∧
    "1234567".data.head? ≠ some '0' := by decide

/-- **C1** (amended).  UPC-E validation succeeds iff the payload is
digit-only with length exactly 6, or its first character is `'0'`; the Rust
`&&`/`||` precedence reduces the source condition to this disjunction. -/
theorem C1_upce_validation (data : List Char) :
    (isOkB (Barcode.validate .UPCE data) = true ↔
      ((data.all Char.isDigit = true ∧ data.length = 6) ∨ data.head? = some '0')) ∧
    (isOkB (Barcode.validate .UPCE data) = false →
      Barcode.validate .UPCE data =
        .error (.input ("invalid UPC-E data: " ++ String.mk data))) := by
  have hiff :
      (data.all Char.isDigit && [6, 7, 8, 11, 12].contains (strLen data) && (strLen data == 6)
        || (data.head? == some '0')) = true ↔
      ((data.all Char.isDigit = true ∧ data.length = 6) ∨ data.head? = some '0') := by
    simp only [Bool.or_eq_true, Bool.and_eq_true, beq_iff_eq]
    constructor
    · rintro (⟨⟨hall, -⟩, hlen⟩ | hh)
      · exact .inl ⟨hall, by rw [← strLen_digits data hall, hlen]⟩
      · exact .inr hh
    · rintro (⟨hall, hlen⟩ | hh)
      · have h6 : strLen data = 6 := by rw [strLen_digits data hall, hlen]
        refine .inl ⟨⟨hall, ?_⟩, h6⟩
        rw [h6]
        decide
      · exact .inr hh
  unfold Barcode.validate
  dsimp only
  rcases hc : (data.all Char.isDigit && [6, 7, 8, 11, 12].contains (strLen data)
      && (strLen data == 6) || (data.head? == some '0')) with _ | _
  · rw [if_neg (by simp [hc])]
    refine ⟨?_, fun _ => rfl⟩
    constructor
    · intro h
      simp [isOkB] at h
    · intro h
      have h2 := hiff.mpr h
      rw [hc] at h2
      exact Bool.noConfusion h2
  · rw [if_pos (by simp [hc])]
    refine ⟨?_, fun h => by simp [isOkB] at h⟩
    constructor
    · intro _
      exact hiff.mp hc
    · intro _
      rfl

/-- **C1** (witness of the amended claim): `"9805874"` (7 digits, not
starting with `'0'`) is rejected with the UPC-E `Input` error. -/
theorem C1_upce_validation_witness :
    isOkB (Barcode.validate .UPCE "9805874".data) = false ∧
    Barcode.validate .UPCE "9805874".data =
      .error (.input ("invalid UPC-E data: " ++ String.mk "9805874".data)) :=
  ⟨by decide, (C1_upce_validation "9805874".data).2 (by decide)⟩

/-- **C3**: the two-byte parameter-length codec.  With
`total = byte-length(data) + padding`, `get_parameters_number_2` returns
`Ok((pl, ph))` with `pl + 256 * ph = total` whenever `total ≤ 65535`, and an
error whenever `total > 65535`. -/
theorem C3_parameters_number_2 (data : List Char) (padding : Nat) :
    (strLen data + padding ≤ 65535 →
      get_parameters_number_2 data padding =
        .ok ((strLen data + padding) % 256, (strLen data + padding) / 256) ∧
      (strLen data + padding) % 256 + 256 * ((strLen data + padding) / 256) =
        strLen data + padding) ∧
    (65535 < strLen data + padding →
      isOkB (get_parameters_number_2 data padding) = false) := by
  unfold get_parameters_number_2
  dsimp only
  have hlen : (strBytes data).length + padding = strLen data + padding := rfl
  rw [hlen]
  set T := strLen data + padding with hT
  have h1 : ¬ (T - 256 * (T / 256) ≥ 256) := by omega
  rw [if_neg h1]
  constructor
  · intro h
    have h2 : ¬ (T / 256 ≥ 256) := by omega
    rw [if_neg h2]
    have hmod : T - 256 * (T / 256) = T % 256 := by omega
    rw [hmod]
    exact ⟨rfl, by omega⟩
  · intro h
    have h2 : T / 256 ≥ 256 := by omega
    rw [if_pos h2]
    rfl

/-- **C3** (witness): the codec at `("test123456", 3)`, total 13. -/
theorem C3_parameters_number_2_witness :
    strLen "test123456".data + 3 ≤ 65535 ∧
    get_parameters_number_2 "test123456".data 3 = .ok (13, 0) := by
  refine ⟨by decide, ?_⟩
  have h := (C3_parameters_number_2 "test123456".data 3).1 (by decide)
  rw [h.1]
  decide

/-- **C7**: `Protocol::text_size` succeeds exactly when both sizes lie in
`1..=8`, packs the final byte as `((width-1) << 4) | (height-1)` (so
`text_size(2,3)` is `1D 21 12`), and otherwise returns an `Input` error
naming the offending field. -/
theorem C7_text_size (width height : Nat) :
    (isOkB (Protocol.text_size width height) = true ↔
      (1 ≤ width ∧ width ≤ 8 ∧ 1 ≤ height ∧ height ≤ 8)) ∧
    (1 ≤ width → width ≤ 8 → 1 ≤ height → height ≤ 8 →
      Protocol.text_size width height =
        .ok (GS_TEXT_SIZE_SELECT ++ [((width - 1) <<< 4) ||| (height - 1)])) ∧
    (¬ (1 ≤ width ∧ width ≤ 8) →
      Protocol.text_size width height =
        .error (.input ("invalid text_size width: " ++ toString width))) ∧
    ((1 ≤ width ∧ width ≤ 8) → ¬ (1 ≤ height ∧ height ≤ 8) →
      Protocol.text_size width height =
        .error (.input ("invalid text_size height: " ++ toString height))) ∧
    Protocol.text_size 2 3 = .ok [0x1D, 0x21, 0x12] := by
  refine ⟨?_, ?_, ?_, ?_, by decide⟩
  · unfold Protocol.text_size
    by_cases hw : 1 ≤ width ∧ width ≤ 8
    · by_cases hh : 1 ≤ height ∧ height ≤ 8
      · rw [if_neg (by simpa using hw), if_neg (by simpa using hh)]
        simp [isOkB, hw, hh]
      · rw [if_neg (by simpa using hw), if_pos (by simpa using hh)]
        simp [isOkB]
        omega
    · rw [if_pos (by simpa using hw)]
      simp [isOkB]
      omega
  · intro h1 h2 h3 h4
    unfold Protocol.text_size
    rw [if_neg (by simp; omega), if_neg (by simp; omega)]
  · intro hw
    unfold Protocol.text_size
    rw [if_pos (by simpa using hw)]
  · intro hw hh
    unfold Protocol.text_size
    rw [if_neg (by simpa using hw), if_pos (by simpa using hh)]

/-- **C7** (witness): `text_size(2,3)` evaluated through the theorem. -/
theorem C7_text_size_witness :
    1 ≤ 2 ∧ (2 : Nat) ≤ 8 ∧ 1 ≤ 3 ∧ (3 : Nat) ≤ 8 ∧
    Protocol.text_size 2 3 = .ok (GS_TEXT_SIZE_SELECT ++ [((2 - 1) <<< 4) ||| (3 - 1)]) :=
  ⟨by decide, by decide, by decide, by decide,
    (C7_text_size 2 3).2.1 (by decide) (by decide) (by decide) (by decide)⟩
theorem isOkB_ite {α : Type} (b : Bool) (x : α) (e : PrinterError) :
    isOkB (if b then (.ok x : Except PrinterError α) else .error e) = true ↔ b = true := by
  cases b <;> simp [isOkB]

theorem expanded_chars_ascii : ∀ c ∈ EXPANDED_STACKED_VALID_CHARS, c.toNat < 128 := by decide

theorem strLen_of_all_contains (s alpha : List Char)
    (halpha : ∀ c ∈ alpha, c.toNat < 128)
    (h : s.all (fun c => alpha.contains c) = true) : strLen s = s.length := by
  refine strLen_ascii s (fun c hc => ?_)
  have h2 := (List.all_eq_true.mp h) c hc
  have hmem : c ∈ alpha := by simpa using h2
  exact halpha c hmem

/-- **C8**: GS1 DataBar 2D payload validation.  Stacked and
StackedOmnidirectional accept exactly the digit-only payloads of length 13;
ExpandedStacked accepts exactly the payloads of at most 255 characters drawn
from the 36-symbol alphabet, the empty string included. -/
theorem C8_gs1_databar_2d_check_data (data : List Char) :
    (isOkB (GS1DataBar2D.check_data data .Stacked) = true ↔
      (data.all (fun c => c.isDigit) = true ∧ data.length = 13)) ∧
    (isOkB (GS1DataBar2D.check_data data .StackedOmnidirectional) = true ↔
      (data.all (fun c => c.isDigit) = true ∧ data.length = 13)) ∧
    (isOkB (GS1DataBar2D.check_data data .ExpandedStacked) = true ↔
      (data.length ≤ 255 ∧
        data.all (fun c => EXPANDED_STACKED_VALID_CHARS.contains c) = true)) ∧
    GS1DataBar2D.check_data [] .ExpandedStacked = .ok () := by
  have hs : (data.all (fun c => c.isDigit) && (strLen data == 13)) = true ↔
      (data.all (fun c => c.isDigit) = true ∧ data.length = 13) := by
    simp only [Bool.and_eq_true, beq_iff_eq]
    constructor
    · rintro ⟨ha, hl⟩
      exact ⟨ha, by rw [← strLen_digits data ha, hl]⟩
    · rintro ⟨ha, hl⟩
      exact ⟨ha, by rw [strLen_digits data ha, hl]⟩
  refine ⟨?_, ?_, ?_, by decide⟩
  · simp only [GS1DataBar2D.check_data]
    rw [isOkB_ite]
    exact hs
  · simp only [GS1DataBar2D.check_data]
    rw [isOkB_ite]
    exact hs
  · simp only [GS1DataBar2D.check_data]
    rw [isOkB_ite]
    simp only [Bool.and_eq_true, decide_eq_true_iff]
    constructor
    · rintro ⟨hl, ha⟩
      have := strLen_of_all_contains data EXPANDED_STACKED_VALID_CHARS expanded_chars_ascii ha
      exact ⟨by omega, ha⟩
    · rintro ⟨hl, ha⟩
      have := strLen_of_all_contains data EXPANDED_STACKED_VALID_CHARS expanded_chars_ascii ha
      exact ⟨by omega, ha⟩

/-- **C10**: `Pdf417Option::new` range-checks only columns (`0..=30`) and
rows (`0` or `3..=90`) — every module width, row height, type and correction
level is stored unchecked, a `Ratio` outside `1..=40` included — and such a
ratio is rejected only by the correction-level byte conversion inside
`Protocol::pdf417`. -/
theorem C10_pdf417_option_new (columns rows width row_height : Nat) (ct : Pdf417Type)
    (cl : Pdf417CorrectionLevel) :
    (isOkB (Pdf417Option.new columns rows width row_height ct cl) = true ↔
      (columns ≤ 30 ∧ (rows = 0 ∨ (3 ≤ rows ∧ rows ≤ 90)))) ∧
    (∀ v, ¬ (1 ≤ v ∧ v ≤ 40) →
      Pdf417CorrectionLevel.tryIntoBytes (.RatioVal v) =
        .error (.input ("invalid PDF417 correction level ratio: " ++ toString v))) ∧
    (∀ v (data : List Char) (o : Pdf417Option),
      o.correction_level = .RatioVal v → ¬ (1 ≤ v ∧ v ≤ 40) →
      isOkB (Protocol.pdf417 data o) = false) := by
  refine ⟨?_, ?_, ?_⟩
  · unfold Pdf417Option.new
    by_cases h1 : columns ≤ 30
    · rw [if_neg (by simpa using h1)]
      by_cases h2 : rows = 0
      · rw [if_neg (by simp [h2])]
        simp [isOkB, h1, h2]
      · by_cases h3 : 3 ≤ rows ∧ rows ≤ 90
        · rw [if_neg (by simp [h3])]
          simp [isOkB, h1, h3]
        · rw [if_pos (by simp [h2, h3])]
          simp [isOkB, h2, h3]
    · rw [if_pos (by simpa using h1)]
      simp [isOkB, h1]
  · intro v hv
    simp [Pdf417CorrectionLevel.tryIntoBytes, hv]
  · intro v data o ho hv
    simp [Protocol.pdf417, Protocol.pdf417_correction_level, ho,
      Pdf417CorrectionLevel.tryIntoBytes, hv, isOkB, Bind.bind, Except.bind]

/-- **C10** (witness): a `Ratio(41)` correction level passes
`Pdf417Option::new` and fails only inside `Protocol::pdf417`. -/
theorem C10_pdf417_option_new_witness :
    isOkB (Pdf417Option.new 0 0 8 8 .Standard (.RatioVal 41)) = true ∧
    (⟨0, 0, 8, 8, .Standard, .RatioVal 41⟩ : Pdf417Option).correction_level = .RatioVal 41 ∧
    ¬ (1 ≤ 41 ∧ 41 ≤ 40) ∧
    isOkB (Protocol.pdf417 [] ⟨0, 0, 8, 8, .Standard, .RatioVal 41⟩) = false := by
  refine ⟨?_, rfl, by omega, ?_⟩
  · have h := (C10_pdf417_option_new 0 0 8 8 .Standard (.RatioVal 41)).1
    rw [h]
    exact ⟨by omega, .inl rfl⟩
  · exact (C10_pdf417_option_new 0 0 8 8 .Standard (.RatioVal 41)).2.2 41 []
      ⟨0, 0, 8, 8, .Standard, .RatioVal 41⟩ rfl (by omega)
/-- **C4**: status decode.  For every category, a response byte is rejected
iff it violates the fixed template (bit0 = 0, bit1 = 1, bit4 = 1, bit7 = 0,
LSB-indexed); every accepted byte decodes to a flag map whose key set is
exactly that category's fixed flag set. -/
theorem C4_status_parse (req : RealTimeStatusRequest) (b : Nat) (_hb : b < 256) :
    (isOkB (RealTimeStatusResponse.parse req b) = true ↔
      (bitAt b 0 = 0 ∧ bitAt b 1 = 1 ∧ bitAt b 4 = 1 ∧ bitAt b 7 = 0)) ∧
    (∀ m, RealTimeStatusResponse.parse req b = .ok m →
      m.map Prod.fst = categoryFlags req) := by
  have hbin : binaryOf b =
      [bitAt b 0, bitAt b 1, bitAt b 2, bitAt b 3, bitAt b 4, bitAt b 5, bitAt b 6, bitAt b 7] :=
    rfl
  have hvalid : is_pattern_valid (binaryOf b) = true ↔
      (bitAt b 0 = 0 ∧ bitAt b 1 = 1 ∧ bitAt b 4 = 1 ∧ bitAt b 7 = 0) := by
    rw [hbin]
    simp [is_pattern_valid]
    tauto
  unfold RealTimeStatusResponse.parse
  dsimp only
  by_cases hv : is_pattern_valid (binaryOf b) = true
  · rw [if_neg (by simp [hv])]
    refine ⟨⟨fun _ => hvalid.mp hv, fun _ => rfl⟩, fun m hm => ?_⟩
    have h2 := Except.ok.inj hm
    rw [← h2]
    cases req <;> rfl
  · rw [if_pos (by simpa using hv)]
    constructor
    · constructor
      · intro h
        simp [isOkB] at h
      · intro h
        exact absurd (hvalid.mpr h) hv
    · intro m hm
      simp at hm
/-- **C4** (witness): the Printer category at byte `0b00011010`, which
matches the template. -/
theorem C4_status_parse_witness :
    (0b00011010 : Nat) < 256 ∧
    isOkB (RealTimeStatusResponse.parse .Printer 0b00011010) = true ∧
    RealTimeStatusResponse.parse .Printer 0b00011010 =
      .ok [(.DrawerKickOutConnectorPin3Low, true), (.Online, false),
           (.WaitingForOnlineRecovery, false), (.PaperFeedButtonPressed, false)] ∧
    [(RealTimeStatusResponse.DrawerKickOutConnectorPin3Low, true), (.Online, false),
     (.WaitingForOnlineRecovery, false),
     (.PaperFeedButtonPressed, false)].map Prod.fst = categoryFlags .Printer := by
  refine ⟨by decide, ?_, by decide, ?_⟩
  · rw [(C4_status_parse .Printer 0b00011010 (by decide)).1]
    decide
  · exact (C4_status_parse .Printer 0b00011010 (by decide)).2 _ (by decide)

/-- **C5**: `Protocol::barcode` always returns the five commands module
width, bar height, font, HRI position, print — the print command being
`[1D 6B, symbology ordinal, payload bytes, 00]` — while the width-setting
subroutine clamps widths above 5 to 5 and rejects width 0, and the
height-setting subroutine rejects height 0. -/
theorem C5_barcode (data : List Char) (system : BarcodeSystem) (opt : BarcodeOption) :
    (Protocol.barcode data system opt =
      .ok [GS_BARCODE_WIDTH ++ [opt.width.toU8], GS_BARCODE_HEIGHT ++ [opt.height.toU8],
           GS_BARCODE_FONT ++ [opt.font.toU8], GS_BARCODE_POSITION ++ [opt.position.toU8],
           GS_BARCODE_PRINT ++ [system.toU8] ++ strBytes data ++ [NUL]]) ∧
    (∀ w, 5 < w → Protocol.barcode_width w = .ok (GS_BARCODE_WIDTH ++ [5])) ∧
    Protocol.barcode_width 0 = .error (.input "barcode width cannot be equal to 0") ∧
    Protocol.barcode_height 0 = .error (.input "barcode height cannot be equal to 0") := by
  refine ⟨?_, ?_, by decide, by decide⟩
  · rcases opt with ⟨w, h, f, p⟩
    cases w <;> cases h <;>
      simp [Protocol.barcode, Protocol.barcode_width, Protocol.barcode_height,
        Protocol.barcode_font, Protocol.barcode_position, Protocol.barcode_print,
        BarcodeWidth.toU8, BarcodeHeight.toU8, Bind.bind, Except.bind]
  · intro w hw
    unfold Protocol.barcode_width
    rw [if_neg (by simp; omega)]
    dsimp only
    rw [if_pos (by simpa using hw)]

/-- **C5** (witness): a width of 18 is clamped to 5. -/
theorem C5_barcode_witness :
    5 < 18 ∧ Protocol.barcode_width 18 = .ok (GS_BARCODE_WIDTH ++ [5]) :=
  ⟨by decide,
    (C5_barcode [] .UPCA ⟨.M, .S, .A, .None⟩).2.1 18 (by decide)⟩
theorem encode_single (c : Char) : Encoder.encode [c] = utf8Char c := by
  simp [Encoder.encode, strBytes]

theorem textGo_length_le (table : List (Char × Nat)) (m : Nat) :
    ∀ (rest : List Char) (i : Nat) (cmd : List Nat), cmd.length = i →
      (Protocol.textGo table (some m) rest i cmd).length ≤ max cmd.length (m + 3) := by
  intro rest
  induction rest with
  | nil =>
    intro i cmd _
    simp [Protocol.textGo]
  | cons c rest ih =>
    intro i cmd hic
    unfold Protocol.textGo
    by_cases hstop : i ≥ m
    · rw [if_pos (by simp [Option.any, hstop])]
      exact le_max_left _ _
    · rw [if_neg (by simp [Option.any, hstop])]
      cases htab : tableGet table c with
      | some n =>
        have h1 := ih (i + 1) (cmd ++ [n]) (by simp [hic])
        refine le_trans h1 ?_
        have h2 : (cmd ++ [n]).length ≤ m + 3 := by simp [hic]; omega
        omega
      | none =>
        have hs : (Encoder.encode [c]).length ≤ 4 := by
          rw [encode_single]; exact utf8Char_length_le c
        have h1 := ih (i + (Encoder.encode [c]).length) (cmd ++ Encoder.encode [c])
          (by simp [hic])
        refine le_trans h1 ?_
        have h2 : (cmd ++ Encoder.encode [c]).length ≤ m + 3 := by
          simp [hic]
          omega
        omega

/-- **C2** (counterexample).  With page code PC437, text `"😊"` and max
length 1, `Protocol::text` emits the 4 fallback bytes of the emoji — more
than the requested max: the loop checks only whether the running count has
already reached the max before a character, not whether appending that
character's bytes would exceed it. -/
theorem C2_text_max_length_counterexample :
    Protocol.text "😊".data (some .PC437) (some 1) = .ok [0xF0, 0x9F, 0x98, 0x8A] ∧
    ¬ ([0xF0, 0x9F, 0x98, 0x8A] : List Nat).length ≤ 1 := by decide

/-- **C2** (amended).  `Protocol::text` with a max length stops the
page-code loop only once the running byte count has reached the max, so a
fallback-encoded character appended just below the limit can overshoot it by
up to 3 bytes: the output length is at most `max + 3`; on the no-page-code
path the output is truncated to at most `max` bytes. -/
theorem C2_text_max_length (text : List Char) (pc : Option PageCode) (m : Nat)
    (out : List Nat) (hok : Protocol.text text pc (some m) = .ok out) :
    out.length ≤ m + 3 ∧ (pc = none → out.length ≤ m) := by
  cases pc with
  | none =>
    simp only [Protocol.text] at hok
    have h1 := Except.ok.inj hok
    rw [← h1]
    refine ⟨?_, fun _ => ?_⟩ <;> simp [List.length_take]
  | some pc =>
    refine ⟨?_, by intro h; cases h⟩
    simp only [Protocol.text] at hok
    cases htf : PageCodeTable.tryFrom pc with
    | error e => rw [htf] at hok; simp [Bind.bind, Except.bind] at hok
    | ok t =>
      rw [htf] at hok
      simp only [Bind.bind, Except.bind] at hok
      have h1 := Except.ok.inj hok
      rw [← h1]
      have h2 := textGo_length_le t.get_table m text 0 [] rfl
      simpa using h2

/-- **C2** (witness of the amended bound): the counterexample input itself,
4 bytes against the bound `1 + 3`. -/
theorem C2_text_max_length_witness :
    Protocol.text "😊".data (some .PC437) (some 1) = .ok [0xF0, 0x9F, 0x98, 0x8A] ∧
    ([0xF0, 0x9F, 0x98, 0x8A] : List Nat).length ≤ 1 + 3 :=
  ⟨by decide,
    (C2_text_max_length "😊".data (some .PC437) 1 [0xF0, 0x9F, 0x98, 0x8A] (by decide)).1⟩

theorem textGo_chunks (table : List (Char × Nat)) (ml : Option Nat) :
    ∀ (rest : List Char) (i : Nat) (cmd : List Nat),
      ∃ cs : List Char, cs <+: rest ∧
        Protocol.textGo table ml rest i cmd = cmd ++ (cs.map (fun c =>
          match tableGet table c with
          | some n => [n]
          | none => utf8Char c)).flatten := by
  intro rest
  induction rest with
  | nil =>
    intro i cmd
    exact ⟨[], List.nil_prefix, by simp [Protocol.textGo]⟩
  | cons c rest ih =>
    intro i cmd
    unfold Protocol.textGo
    by_cases hstop : (ml.any (fun m => decide (i ≥ m))) = true
    · rw [if_pos hstop]
      exact ⟨[], List.nil_prefix, by simp⟩
    · rw [if_neg hstop]
      cases htab : tableGet table c with
      | some n =>
        obtain ⟨cs, hpre, heq⟩ := ih (i + 1) (cmd ++ [n])
        refine ⟨c :: cs, ?_, ?_⟩
        · exact List.cons_prefix_cons.mpr ⟨rfl, hpre⟩
        · dsimp only
          rw [heq]
          simp [htab]
      | none =>
        obtain ⟨cs, hpre, heq⟩ := ih (i + (Encoder.encode [c]).length) (cmd ++ Encoder.encode [c])
        refine ⟨c :: cs, ?_, ?_⟩
        · exact List.cons_prefix_cons.mpr ⟨rfl, hpre⟩
        · dsimp only
          rw [heq]
          simp [htab, encode_single]

/-- **C9**: on the page-code path the bytes `Protocol::text` emits are the
concatenation of complete per-character encodings of a prefix of the text —
each character contributes its single table-mapped byte or all bytes of its
generic fallback encoding, so an encoded character is never split. -/
theorem C9_text_never_splits (text : List Char) (pc : PageCode) (t : PageCodeTable)
    (m : Option Nat) (out : List Nat)
    (htf : PageCodeTable.tryFrom pc = .ok t)
    (hok : Protocol.text text (some pc) m = .ok out) :
    ∃ cs : List Char, cs <+: text ∧
      out = (cs.map (fun c =>
        match tableGet t.get_table c with
        | some n => [n]
        | none => utf8Char c)).flatten := by
  simp only [Protocol.text] at hok
  rw [htf] at hok
  simp only [Bind.bind, Except.bind] at hok
  have h1 := Except.ok.inj hok
  obtain ⟨cs, hpre, heq⟩ := textGo_chunks t.get_table m text 0 []
  refine ⟨cs, hpre, ?_⟩
  rw [← h1, heq]
  simp

/-- **C9** (witness): `"é"` under PC858 encodes to the single mapped byte
130. -/
theorem C9_text_never_splits_witness :
    PageCodeTable.tryFrom .PC858 = .ok .PC858 ∧
    Protocol.text "é".data (some .PC858) none = .ok [130] ∧
    ∃ cs : List Char, cs <+: "é".data ∧
      ([130] : List Nat) = (cs.map (fun c =>
        match tableGet (PageCodeTable.get_table .PC858) c with
        | some n => [n]
        | none => utf8Char c)).flatten :=
  ⟨by decide, by decide,
    C9_text_never_splits "é".data .PC858 .PC858 none [130] (by decide) (by decide)⟩
theorem rasterByteGo_eq (img : GrayImage) (y : Nat) :
    ∀ (fuel x bit byte : Nat),
      BitImage.rasterByteGo img y x bit fuel byte =
        byte * 2 ^ (min fuel (img.width - (x + bit))) +
          BitImage.packedBits img y (x + bit) (min fuel (img.width - (x + bit))) := by
  intro fuel
  induction fuel with
  | zero =>
    intro x bit byte
    simp [BitImage.rasterByteGo, BitImage.packedBits]
  | succ fuel ih =>
    intro x bit byte
    unfold BitImage.rasterByteGo
    by_cases hw : x + bit ≥ img.width
    · rw [if_pos hw]
      have h0 : img.width - (x + bit) = 0 := by omega
      simp [h0, BitImage.packedBits]
    · rw [if_neg hw]
      rw [ih x (bit + 1)]
      have h1 : x + (bit + 1) = (x + bit) + 1 := by omega
      rw [h1]
      have h3 : min (fuel + 1) (img.width - (x + bit)) =
          min fuel (img.width - ((x + bit) + 1)) + 1 := by omega
      rw [h3]
      rw [BitImage.packedBits]
      ring

theorem rasterByte_eq_amended (img : GrayImage) (y x : Nat) :
    BitImage.rasterByte img y x = BitImage.rasterByteAmended img y x := by
  unfold BitImage.rasterByte BitImage.rasterByteAmended BitImage.blockLen
  rw [rasterByteGo_eq]
  simp

/-- **C6** (counterexample).  A 1×1 all-ink image rasterizes to the byte
`0x01` — the single pixel lands in the low-order bit — while the spec's
MSB-first, right-zero-padded packing would give `0x80`. -/
theorem C6_raster_counterexample :
    BitImage.raster_data ⟨1, 1, fun _ _ => 0⟩ = [1] ∧
    BitImage.raster_data_spec_msb ⟨1, 1, fun _ _ => 0⟩ = [128] ∧
    ([1] : List Nat) ≠ [128] := by decide

/-- **C6** (amended).  `BitImage::raster_data` packs 8 pixels per byte, left
to right then top to bottom; a full block is MSB first, but the final byte
of a row whose width is not a multiple of 8 holds its pixels in the
low-order bits — zero-padded on the left, not on the right. -/
theorem C6_raster_data_packing (img : GrayImage) :
    BitImage.raster_data img = BitImage.raster_data_amended img := by
  unfold BitImage.raster_data BitImage.raster_data_amended
  simp [rasterByte_eq_amended]
end Escpos
